import Mathlib

/-!
Verification development for `aws_inventory.py` (zenfosec/aws_inventory).

The script is a single-pass batch pipeline: it filters AWS credential
profiles and EC2 regions, then for each (account, region) pair enumerates
EC2 instances and EKS cluster/nodegroup nodes into a CSV file, then
enumerates Kubernetes pods per kubeconfig context, and finally prints
three totals.

The embedding below mirrors the script statement by statement.  The
collaborators (boto3, the kubernetes client) are modelled as an
environment of responses; a boto3 call either returns data or raises
`ClientError` (the only exception the script catches on the AWS side).
Kubernetes faults are modelled with their catchability: the script's
inner handler catches only `ApiException`, so other exceptions
(for example `urllib3` connection errors, `ConfigException`) are uncaught
and crash the program.  CSV rows, counters, console/log activity and the
crash/completion status are threaded through an explicit state, one
`writerow` / `+= 1` at a time, in source order.
-/

namespace AwsInventory

/-- One CSV row, as passed to `csv_writer.writerow` (a list of fields). -/
abbrev Row := List String

/-- One element of `ec2_response.Reservations`: its `Instances`, kept as
their `InstanceId` strings (the only field the script reads). -/
structure Reservation where
  instances : List String
  deriving DecidableEq, Repr

/-- One page of a paginated `describe_instances` response: its
`Reservations` list.  The collaborator's full listing is a `List Ec2Page`;
the script performs a single call, which yields the first page only. -/
structure Ec2Page where
  reservations : List Reservation
  deriving DecidableEq, Repr

/-- Result of a boto3 call: data, or a raised `botocore.ClientError`
(the only exception type the script's `except` clauses catch). -/
inductive BotoResult (α : Type) where
  | ok (val : α)
  | clientError
  deriving DecidableEq, Repr

/-- The `describe_nodegroup` response: the names under
`nodegroup.resources.autoScalingGroups` (the script emits `node.name`). -/
structure NodegroupDesc where
  autoScalingGroups : List String
  deriving DecidableEq, Repr

/-- The EKS collaborator for one (account, region) scoped session. -/
structure EksEnv where
  listClusters : BotoResult (List String)
  listNodegroups : String → BotoResult (List String)
  describeNodegroup : String → String → BotoResult NodegroupDesc

/-- Outcome of activating a kubeconfig context
(`config.load_kube_config` + `client.CoreV1Api()`).  `apiFault` is a
raised `ApiException` (caught only by the outer handler), `otherFault`
any other exception (caught nowhere: the program crashes). -/
inductive KubeOpen where
  | ok
  | apiFault
  | otherFault
  deriving DecidableEq, Repr

/-- Outcome of `v1.list_pod_for_all_namespaces()`: a pod list (each pod
as `(metadata.name, metadata.namespace)`), a raised `ApiException`
(caught by the inner per-context handler), or any other exception
(uncaught: crash). -/
inductive PodQuery where
  | ok (pods : List (String × String))
  | apiFault
  | otherFault
  deriving DecidableEq, Repr

/-- One kubeconfig context as returned by
`config.list_kube_config_contexts`, with the outcomes the collaborator
would produce for it. -/
structure KubeContext where
  name : String
  user : String
  cluster : String
  openRes : KubeOpen
  query : PodQuery
  deriving DecidableEq, Repr

/-- Outcome of `config.list_kube_config_contexts()` itself. -/
inductive CtxList where
  | ok (l : List KubeContext)
  | apiFault
  | otherFault
  deriving DecidableEq, Repr

/-- The whole collaborator environment of one run. -/
structure Env where
  /-- `session.available_profiles`. -/
  credentials : List String
  /-- `session.get_available_regions('ec2')`. -/
  availableRegions : List String
  /-- The paginated `describe_instances` collection per (account, region). -/
  ec2Pages : String → String → BotoResult (List Ec2Page)
  /-- The EKS responses per (account, region). -/
  eks : String → String → EksEnv
  /-- The kubeconfig context listing. -/
  listContexts : CtxList

/-- Console/log activity the run performs, kept only to the granularity
the specification talks about. -/
inductive Ev where
  | accountEntered (account : String)
  | regionEntered (account region : String)
  | ec2Fault (account region : String)
  | clusterVisited (account region cluster : String)
  | eksNodesFault (account region cluster : String)
  | eksClustersFault (account region : String)
  | contextEntered (name : String)
  | podQueryFault (name : String)
  | podSectionFault
  | pairSummary (account region : String) (instances nodes : Nat)
  | summary (instances nodes pods : Nat)
  deriving DecidableEq, Repr

/-- Mutable program state: the CSV rows written so far (header included),
the three global counters, the per-region `account_pod_count` variable
(`none` while it has never been assigned: referencing it then is a
`NameError`), and the activity log. -/
structure St where
  rows : List Row
  instance_count : Nat
  node_count : Nat
  pod_count : Nat
  acct_pod : Option Nat
  events : List Ev
  deriving DecidableEq, Repr

/-- Whether the run reached the final summary or died on an uncaught
exception. -/
inductive RunStatus where
  | completed
  | crashed
  deriving DecidableEq, Repr

/-- `csv_writer.writerow(row)`. -/
def writerow (row : Row) (s : St) : St :=
  { s with rows := s.rows ++ [row] }

/-- Append one console/log event. -/
def emit (e : Ev) (s : St) : St :=
  { s with events := s.events ++ [e] }

/-- The header row written at line 56 of the script. -/
def headerRow : Row :=
  ["Type", "Name", "Account / ARN", "Region / Namespace"]

/-- The script's `unused_regions` literal (line 48). -/
def unused_regions : List String :=
  ["af-south-1", "ap-east-1", "ap-south-2", "ap-southeast-3",
   "ap-southeast-4", "ca-west-1", "eu-central-2", "eu-south-1",
   "eu-south-2", "il-central-1", "me-central-1", "me-south-1"]

/-- Line 49: `[region for region in session.get_available_regions('ec2')
if region not in unused_regions]`. -/
def regionsOf (avail : List String) : List String :=
  avail.filter (fun r => !unused_regions.contains r)

/-- Python's substring test `needle in hay` on the character lists. -/
def hasSubstr (needle : List Char) : List Char → Bool
  | [] => needle.isEmpty
  | c :: rest => needle.isPrefixOf (c :: rest) || hasSubstr needle rest

/-- Line 64's filter, as a keep-predicate: the loop body runs unless
`account == 'default' or 'netsec' in account`. -/
def keepAccount (a : String) : Bool :=
  !(a == "default" || hasSubstr "netsec".toList a.toList)

/-- Loop body of lines 92-98 for one instance id: writerow, then
`instance_count += 1`, then `account_instance_count += 1` (the `Nat`
threaded alongside the state). -/
def doInstance (a r : String) (p : St × Nat) (iid : String) : St × Nat :=
  let s := writerow ["instance", iid, a, r] p.1
  let s := { s with instance_count := s.instance_count + 1 }
  (s, p.2 + 1)

/-- Loop of line 92 over one reservation's `Instances`. -/
def doReservation (a r : String) (p : St × Nat) (resv : Reservation) : St × Nat :=
  resv.instances.foldl (doInstance a r) p

/-- Lines 89-101: the EC2 try-block.  One `describe_instances()` call;
on `ClientError` the fault is logged and the section yields nothing.
The single call sees only the first page of the paginated collection. -/
def ec2Section (env : Env) (a r : String) (s : St) : St × Nat :=
  match env.ec2Pages a r with
  | .clientError => (emit (.ec2Fault a r) s, 0)
  | .ok pages =>
      match pages with
      | [] => (s, 0)
      | p :: _ => p.reservations.foldl (doReservation a r) (s, 0)

/-- Loop body of lines 117-122 for one autoscaling-group node name:
writerow, `node_count += 1`, `account_node_count += 1`. -/
def doNode (a r : String) (p : St × Nat) (n : String) : St × Nat :=
  let s := writerow ["node", n, a, r] p.1
  let s := { s with node_count := s.node_count + 1 }
  (s, p.2 + 1)

/-- Lines 113-122: the nodegroup loop.  A `ClientError` from
`describe_nodegroup` propagates to the per-CLUSTER handler, so it aborts
the remaining nodegroups of this cluster; the returned flag records that
the handler will run. -/
def ngLoop (a r cluster : String) (e : EksEnv) :
    List String → St × Nat → St × Nat × Bool
  | [], (s, anc) => (s, anc, false)
  | ng :: rest, (s, anc) =>
      match e.describeNodegroup cluster ng with
      | .clientError => (s, anc, true)
      | .ok d =>
          let p := d.autoScalingGroups.foldl (doNode a r) (s, anc)
          ngLoop a r cluster e rest p

/-- Lines 106-125: the body of the cluster loop, with the inner
try/except around `list_nodegroups` and the whole nodegroup loop. -/
def clusterBody (a r : String) (e : EksEnv) (p : St × Nat) (cluster : String) :
    St × Nat :=
  let s := emit (.clusterVisited a r cluster) p.1
  match e.listNodegroups cluster with
  | .clientError => (emit (.eksNodesFault a r cluster) s, p.2)
  | .ok ngs =>
      match ngLoop a r cluster e ngs (s, p.2) with
      | (s, anc, faulted) =>
          (if faulted then emit (.eksNodesFault a r cluster) s else s, anc)

/-- Lines 104-128: the EKS try-block.  The cluster loop iterates the
list value of the original `list_clusters` response; the later
rebindings of the `eks_response` variable inside the body do not change
that (a Python `for` iterates the object captured at loop entry). -/
def eksSection (a r : String) (e : EksEnv) (s : St) : St × Nat :=
  match e.listClusters with
  | .clientError => (emit (.eksClustersFault a r) s, 0)
  | .ok cs => cs.foldl (clusterBody a r e) (s, 0)

/-- Lines 70-136: the body of the region loop.  `account_pod_count = 0`
(line 86) is the one assignment that variable ever gets.  Lines 131-136
print the per-pair summary only when the pair yielded an instance or a
node. -/
def regionBody (env : Env) (a : String) (s : St) (r : String) : St :=
  let s := emit (.regionEntered a r) s
  let s := { s with acct_pod := some 0 }
  match ec2Section env a r s with
  | (s, aic) =>
      match eksSection a r (env.eks a r) s with
      | (s, anc) =>
          if 0 < aic ∨ 0 < anc then emit (.pairSummary a r aic anc) s else s

/-- Lines 62-136: the body of the account loop, including the filter of
line 64. -/
def accountBody (env : Env) (s : St) (a : String) : St :=
  if keepAccount a then
    (regionsOf env.availableRegions).foldl (regionBody env a)
      (emit (.accountEntered a) s)
  else s

/-- The whole account/region section (lines 62-136). -/
def awsSection (env : Env) (s : St) : St :=
  env.credentials.foldl (accountBody env) s

/-- Lines 149-153: the pod loop of one context.  `writerow` and
`pod_count += 1` happen before `account_pod_count += 1`; if
`account_pod_count` was never assigned (no region iteration ever ran)
that last statement raises `NameError`, uncaught: the first pod of the
run still gets its row and its count, then the program crashes. -/
def podLoop (ctxName : String) : List (String × String) → St → St × Bool
  | [], s => (s, false)
  | pod :: rest, s =>
      let s := writerow ["pod", pod.1, ctxName, pod.2] s
      let s := { s with pod_count := s.pod_count + 1 }
      match s.acct_pod with
      | none => (s, true)
      | some k => podLoop ctxName rest { s with acct_pod := some (k + 1) }

/-- How the context loop ends: normally; by an `ApiException` escaping
to the outer handler of line 158; or by an uncaught exception. -/
inductive PodOutcome where
  | completed
  | abortedApi
  | crashed
  deriving DecidableEq, Repr

/-- Lines 141-157: the context loop.  `load_kube_config` and
`CoreV1Api()` are NOT inside the inner try: a fault there leaves the
loop (an `ApiException` reaches the outer handler, anything else is
uncaught).  The inner `except client.ApiException` covers only the pod
query and the pod loop. -/
def ctxLoop : List KubeContext → St → St × PodOutcome
  | [], s => (s, .completed)
  | c :: rest, s =>
      match c.openRes with
      | .otherFault => (s, .crashed)
      | .apiFault => (s, .abortedApi)
      | .ok =>
          let s := emit (.contextEntered c.name) s
          match c.query with
          | .otherFault => (s, .crashed)
          | .apiFault => ctxLoop rest (emit (.podQueryFault c.name) s)
          | .ok pods =>
              match podLoop c.name pods s with
              | (s, true) => (s, .crashed)
              | (s, false) => ctxLoop rest s

/-- Lines 139-160: the pod section with its outer
`except ApiException` handler. -/
def podSection (env : Env) (s : St) : St × RunStatus :=
  match env.listContexts with
  | .otherFault => (s, .crashed)
  | .apiFault => (emit .podSectionFault s, .completed)
  | .ok ctxs =>
      match ctxLoop ctxs s with
      | (s, .completed) => (s, .completed)
      | (s, .abortedApi) => (emit .podSectionFault s, .completed)
      | (s, .crashed) => (s, .crashed)

/-- The run's observable outcome. -/
structure RunOut where
  rows : List Row
  instance_count : Nat
  node_count : Nat
  pod_count : Nat
  events : List Ev
  status : RunStatus
  deriving DecidableEq, Repr

/-- The state right after the header write of line 56. -/
def initSt : St :=
  { rows := [headerRow], instance_count := 0, node_count := 0,
    pod_count := 0, acct_pod := none, events := [] }

/-- The whole program: header, account/region section, pod section, and
(on the normal path) the final summary of lines 163-168. -/
def runInventory (env : Env) : RunOut :=
  let s := awsSection env initSt
  match podSection env s with
  | (s, .completed) =>
      { rows := s.rows, instance_count := s.instance_count,
        node_count := s.node_count, pod_count := s.pod_count,
        events := s.events ++
          [.summary s.instance_count s.node_count s.pod_count],
        status := .completed }
  | (s, .crashed) =>
      { rows := s.rows, instance_count := s.instance_count,
        node_count := s.node_count, pod_count := s.pod_count,
        events := s.events, status := .crashed }

/-! ### Spec-level descriptions of what each section contributes

These functions describe, per section, the rows, counts and events the
imperative model appends.  The characterization lemmas below prove the
two sides equal. -/

/-- The instance ids of one `describe_instances` page, in reservation
order. -/
def pageInstanceIds (p : Ec2Page) : List String :=
  (p.reservations.map Reservation.instances).flatten

/-- The instance ids the single un-paginated call of line 90 sees:
those of the first page only. -/
def firstPageIds : List Ec2Page → List String
  | [] => []
  | p :: _ => pageInstanceIds p

/-- The instance ids of the whole paginated collection (what a fully
drained listing would contain). -/
def allPageIds (pages : List Ec2Page) : List String :=
  (pages.map pageInstanceIds).flatten

/-- The instance ids the script emits for one (account, region) pair. -/
def pairInstanceIds (env : Env) (a r : String) : List String :=
  match env.ec2Pages a r with
  | .clientError => []
  | .ok pages => firstPageIds pages

/-- The CSV row of line 96. -/
def instanceRow (a r iid : String) : Row :=
  ["instance", iid, a, r]

/-- The CSV row of line 120. -/
def nodeRow (a r n : String) : Row :=
  ["node", n, a, r]

/-- The CSV row of line 151. -/
def podRow (ctx : String) (pod : String × String) : Row :=
  ["pod", pod.1, ctx, pod.2]

/-- Instance rows of one pair. -/
def pairInstanceRows (env : Env) (a r : String) : List Row :=
  (pairInstanceIds env a r).map (instanceRow a r)

/-- Console/log events of the EC2 section of one pair. -/
def pairInstanceEvs (env : Env) (a r : String) : List Ev :=
  match env.ec2Pages a r with
  | .clientError => [.ec2Fault a r]
  | .ok _ => []

/-- Node names collected from one cluster's nodegroup list, together
with the flag that a `describe_nodegroup` fault cut the loop short
(dropping every later nodegroup of the cluster). -/
def ngNodeNames (e : EksEnv) (cluster : String) :
    List String → List String × Bool
  | [] => ([], false)
  | ng :: rest =>
      match e.describeNodegroup cluster ng with
      | .clientError => ([], true)
      | .ok d =>
          match ngNodeNames e cluster rest with
          | (ns, f) => (d.autoScalingGroups ++ ns, f)

/-- Node names one cluster contributes. -/
def clusterNodeNames (e : EksEnv) (cluster : String) : List String :=
  match e.listNodegroups cluster with
  | .clientError => []
  | .ok ngs => (ngNodeNames e cluster ngs).1

/-- Console/log events of one cluster's processing. -/
def clusterEvs (a r : String) (e : EksEnv) (cluster : String) : List Ev :=
  Ev.clusterVisited a r cluster ::
    (match e.listNodegroups cluster with
     | .clientError => [.eksNodesFault a r cluster]
     | .ok ngs =>
         if (ngNodeNames e cluster ngs).2 then [.eksNodesFault a r cluster]
         else [])

/-- Node names the whole EKS section of one pair contributes. -/
def eksNodeNames (e : EksEnv) : List String :=
  match e.listClusters with
  | .clientError => []
  | .ok cs => (cs.map (clusterNodeNames e)).flatten

/-- Console/log events of the whole EKS section of one pair. -/
def eksEvs (a r : String) (e : EksEnv) : List Ev :=
  match e.listClusters with
  | .clientError => [.eksClustersFault a r]
  | .ok cs => (cs.map (clusterEvs a r e)).flatten

/-- Node names of one pair. -/
def pairNodeNames (env : Env) (a r : String) : List String :=
  eksNodeNames (env.eks a r)

/-- Node rows of one pair. -/
def pairNodeRows (env : Env) (a r : String) : List Row :=
  (pairNodeNames env a r).map (nodeRow a r)

/-- The per-pair summary events: present exactly when the pair yielded
an instance or a node (line 131). -/
def pairSummaryEvs (env : Env) (a r : String) : List Ev :=
  if 0 < (pairInstanceIds env a r).length ∨ 0 < (pairNodeNames env a r).length
  then [.pairSummary a r (pairInstanceIds env a r).length
          (pairNodeNames env a r).length]
  else []

/-- All console/log events of one region-loop iteration. -/
def pairEvs (env : Env) (a r : String) : List Ev :=
  Ev.regionEntered a r ::
    (pairInstanceEvs env a r ++ eksEvs a r (env.eks a r) ++
      pairSummaryEvs env a r)

/-- All CSV rows of one region-loop iteration: the pair's instance rows
then its node rows. -/
def pairRows (env : Env) (a r : String) : List Row :=
  pairInstanceRows env a r ++ pairNodeRows env a r

/-- Rows of one account-loop iteration, region by region. -/
def accountRows (env : Env) (a : String) : List Row :=
  ((regionsOf env.availableRegions).map (pairRows env a)).flatten

/-- Events of one account-loop iteration. -/
def accountEvs (env : Env) (a : String) : List Ev :=
  Ev.accountEntered a ::
    ((regionsOf env.availableRegions).map (pairEvs env a)).flatten

/-- Instance total of one account. -/
def accountInstanceLen (env : Env) (a : String) : Nat :=
  (((regionsOf env.availableRegions).map (pairInstanceIds env a)).map
    List.length).sum

/-- Node total of one account. -/
def accountNodeLen (env : Env) (a : String) : Nat :=
  (((regionsOf env.availableRegions).map (pairNodeNames env a)).map
    List.length).sum

/-- Rows of the AWS section for a given profile list. -/
def awsRowsOf (env : Env) (accts : List String) : List Row :=
  ((accts.filter keepAccount).map (accountRows env)).flatten

/-- Events of the AWS section for a given profile list. -/
def awsEvsOf (env : Env) (accts : List String) : List Ev :=
  ((accts.filter keepAccount).map (accountEvs env)).flatten

/-- Instance total of the AWS section for a given profile list. -/
def awsInstanceLenOf (env : Env) (accts : List String) : Nat :=
  (((accts.filter keepAccount).map (accountInstanceLen env))).sum

/-- Node total of the AWS section for a given profile list. -/
def awsNodeLenOf (env : Env) (accts : List String) : Nat :=
  (((accts.filter keepAccount).map (accountNodeLen env))).sum

/-- `account_pod_count` after the region loop of one account ran over
the region list `rs` starting from `prev`. -/
def acctPodAfter (rs : List String) (prev : Option Nat) : Option Nat :=
  if rs.isEmpty then prev else some 0

/-- `account_pod_count` after the whole AWS section over `accts`. -/
def awsAcctPodOf (env : Env) (accts : List String) (prev : Option Nat) :
    Option Nat :=
  if accts.any keepAccount && !(regionsOf env.availableRegions).isEmpty
  then some 0 else prev

/-- Rows of the AWS section. -/
def awsRows (env : Env) : List Row := awsRowsOf env env.credentials

/-- Events of the AWS section. -/
def awsEvs (env : Env) : List Ev := awsEvsOf env env.credentials

/-- Instance total of the run. -/
def awsInstanceLen (env : Env) : Nat := awsInstanceLenOf env env.credentials

/-- Node total of the run. -/
def awsNodeLen (env : Env) : Nat := awsNodeLenOf env env.credentials

/-- Pod rows one context contributes when it opens successfully. -/
def ctxRowsOk (c : KubeContext) : List Row :=
  match c.query with
  | .ok pods => pods.map (podRow c.name)
  | _ => []

/-- Pod rows of a context list (all contexts opening successfully,
queries succeeding or raising `ApiException`). -/
def ctxsRows (l : List KubeContext) : List Row :=
  (l.map ctxRowsOk).flatten

/-- Events one context contributes when it opens successfully. -/
def ctxEvsOk (c : KubeContext) : List Ev :=
  Ev.contextEntered c.name ::
    (match c.query with
     | .apiFault => [.podQueryFault c.name]
     | _ => [])

/-- Events of a context list (same proviso as `ctxsRows`). -/
def ctxsEvs (l : List KubeContext) : List Ev :=
  (l.map ctxEvsOk).flatten

/-! ### Row and event classifiers -/

/-- The `Type` field of a row. -/
def rowType (row : Row) : String := row.headD ""

/-- The `Account / ARN` field of a row. -/
def rowScope (row : Row) : String := row.getD 2 ""

/-- The `Region / Namespace` field of a row. -/
def rowLoc (row : Row) : String := row.getD 3 ""

/-- Row discriminator tests. -/
def isInstanceRow (row : Row) : Bool := rowType row == "instance"

/-- See `isInstanceRow`. -/
def isNodeRow (row : Row) : Bool := rowType row == "node"

/-- See `isInstanceRow`. -/
def isPodRow (row : Row) : Bool := rowType row == "pod"

/-- Number of rows of one resource type. -/
def countType (t : String) (rows : List Row) : Nat :=
  rows.countP (fun row => rowType row == t)

/-- Events the AWS section can produce (no pod-side event among them). -/
def isAwsEv : Ev → Bool
  | .accountEntered _ => true
  | .regionEntered _ _ => true
  | .ec2Fault _ _ => true
  | .clusterVisited _ _ _ => true
  | .eksNodesFault _ _ _ => true
  | .eksClustersFault _ _ => true
  | .pairSummary _ _ _ _ => true
  | _ => false

/-- Events the pod section can produce. -/
def isPodEv : Ev → Bool
  | .contextEntered _ => true
  | .podQueryFault _ => true
  | .podSectionFault => true
  | _ => false

/-- Extract the account of an account-entered event. -/
def accountEvFn : Ev → Option String
  | .accountEntered a => some a
  | _ => none

/-- Extract the (account, region) of a region-entered event. -/
def regionEvFn : Ev → Option (String × String)
  | .regionEntered a r => some (a, r)
  | _ => none

/-- Extract the cluster of a cluster-visited event. -/
def clusterEvFn : Ev → Option String
  | .clusterVisited _ _ c => some c
  | _ => none

/-- Extract the context of a context-entered event. -/
def ctxEnteredFn : Ev → Option String
  | .contextEntered n => some n
  | _ => none

/-- Extract the context of a pod-query fault event. -/
def podFaultFn : Ev → Option String
  | .podQueryFault n => some n
  | _ => none

/-- Is this a per-pair summary print? -/
def isPairSummaryEv : Ev → Bool
  | .pairSummary _ _ _ _ => true
  | _ => false

/-- The accounts entered, read off the activity log. -/
def accountsEnteredEv (evs : List Ev) : List String :=
  evs.filterMap accountEvFn

/-- The (account, region) pairs entered, read off the activity log. -/
def pairsEnteredEv (evs : List Ev) : List (String × String) :=
  evs.filterMap regionEvFn

/-- The clusters visited, read off the activity log. -/
def clusterVisits (evs : List Ev) : List String :=
  evs.filterMap clusterEvFn

/-! ### Environment mutations used to state fault isolation -/

/-- The same environment, except that `describe_instances` raises
`ClientError` for the one pair (a, r). -/
def withEc2Fault (env : Env) (a r : String) : Env :=
  { env with ec2Pages := fun a' r' =>
      if a' == a && r' == r then .clientError else env.ec2Pages a' r' }

/-- The same environment, except that every EKS call raises
`ClientError` for the one pair (a, r). -/
def withEksFault (env : Env) (a r : String) : Env :=
  { env with eks := fun a' r' =>
      if a' == a && r' == r then
        { listClusters := .clientError,
          listNodegroups := fun _ => .clientError,
          describeNodegroup := fun _ _ => .clientError }
      else env.eks a' r' }

/-- The instance rows of a run. -/
def instRowsOf (o : RunOut) : List Row := o.rows.filter isInstanceRow

/-- The node rows of a run. -/
def nodeRowsOf (o : RunOut) : List Row := o.rows.filter isNodeRow

/-- The pod rows of a run. -/
def podRowsOf (o : RunOut) : List Row := o.rows.filter isPodRow

/-- The instance rows of a run that do not belong to the pair (a, r). -/
def instRowsExcept (a r : String) (o : RunOut) : List Row :=
  o.rows.filter
    (fun row => isInstanceRow row && !(rowScope row == a && rowLoc row == r))

/-- The node rows of a run that do not belong to the pair (a, r). -/
def nodeRowsExcept (a r : String) (o : RunOut) : List Row :=
  o.rows.filter
    (fun row => isNodeRow row && !(rowScope row == a && rowLoc row == r))

/-- Keeps an instance row unless it belongs to the pair (a, r). -/
def instExceptPred (a r : String) (row : Row) : Bool :=
  isInstanceRow row && !(rowScope row == a && rowLoc row == r)

/-- Keeps a node row unless it belongs to the pair (a, r). -/
def nodeExceptPred (a r : String) (row : Row) : Bool :=
  isNodeRow row && !(rowScope row == a && rowLoc row == r)

/-- Is this the final-summary print? -/
def isSummaryEv : Ev → Bool
  | .summary _ _ _ => true
  | _ => false

/-- The (account, region) pairs the enumerator produces, in visit
order. -/
def pairsList (env : Env) : List (String × String) :=
  ((env.credentials.filter keepAccount).map
    (fun a => (regionsOf env.availableRegions).map (fun r => (a, r)))).flatten

/-- An instance or node row must carry a non-skipped profile in its
scope field; any other row passes trivially. -/
def rowFromKeptAccount (creds : List String) (row : Row) : Bool :=
  if isInstanceRow row || isNodeRow row then
    (creds.filter keepAccount).contains (rowScope row)
  else true

/-! ### Concrete environments for the closed theorems -/

/-- An EKS collaborator with no clusters. -/
def trivialEks : EksEnv :=
  { listClusters := .ok [],
    listNodegroups := fun _ => .ok [],
    describeNodegroup := fun _ _ => .ok ⟨[]⟩ }

/-- A minimal healthy environment: one kept profile, one kept region,
no instances, no clusters, no contexts. -/
def baseEnv : Env :=
  { credentials := ["prod"],
    availableRegions := ["us-east-1"],
    ec2Pages := fun _ _ => .ok [],
    eks := fun _ _ => trivialEks,
    listContexts := .ok [] }

/-- A two-page paginated instance listing: instance i-1 on the first
page, instance i-2 on the second. -/
def c1pages : List Ec2Page :=
  [⟨[⟨["i-1"]⟩]⟩, ⟨[⟨["i-2"]⟩]⟩]

/-- Environment for the pagination check. -/
def c1env : Env :=
  { baseEnv with ec2Pages := fun _ _ => .ok c1pages }

/-- A context that is unreachable at activation time: opening it raises
`ApiException`. -/
def c2bad : KubeContext :=
  { name := "bad", user := "u1", cluster := "cl1",
    openRes := .apiFault, query := .ok [] }

/-- A reachable context with two pods. -/
def c2good : KubeContext :=
  { name := "good", user := "u2", cluster := "cl2",
    openRes := .ok, query := .ok [("p1", "ns1"), ("p2", "ns2")] }

/-- Environment with the unreachable context listed before the
reachable one. -/
def c2env : Env :=
  { baseEnv with listContexts := .ok [c2bad, c2good] }

/-- A context that opens but whose pod query raises `ApiException`. -/
def c2qbad : KubeContext :=
  { name := "bad", user := "u1", cluster := "cl1",
    openRes := .ok, query := .apiFault }

/-- Environment where only the pod query of the first context faults. -/
def c2wenv : Env :=
  { baseEnv with listContexts := .ok [c2qbad, c2good] }

/-- An EKS collaborator with one cluster of two nodegroups whose first
nodegroup description faults; the second nodegroup has one node. -/
def c7eks : EksEnv :=
  { listClusters := .ok ["c1"],
    listNodegroups := fun _ => .ok ["ng1", "ng2"],
    describeNodegroup := fun _ ng =>
      if ng == "ng1" then .clientError else .ok ⟨["n2"]⟩ }

/-- Environment for the nodegroup fault-isolation check. -/
def c7env : Env :=
  { baseEnv with eks := fun _ _ => c7eks }

/-- Like `c7eks` but with a healthy nodegroup before the faulting one. -/
def c7weks : EksEnv :=
  { listClusters := .ok ["c1"],
    listNodegroups := fun _ => .ok ["ng0", "ng1", "ng2"],
    describeNodegroup := fun _ ng =>
      if ng == "ng1" then .clientError else .ok ⟨["n-" ++ ng]⟩ }

/-- An EKS collaborator with two clusters whose nodegroup calls fault,
used to check the cluster loop still visits every cluster. -/
def c10eks : EksEnv :=
  { listClusters := .ok ["c1", "c2"],
    listNodegroups := fun c => if c == "c1" then .clientError else .ok ["ng"],
    describeNodegroup := fun _ _ => .clientError }

/-! ### Characterization of the EC2 section -/

theorem instFold_eq (a r : String) (ids : List String) :
    ∀ (s : St) (k : Nat),
      ids.foldl (doInstance a r) (s, k)
        = ({ s with rows := s.rows ++ ids.map (instanceRow a r),
                    instance_count := s.instance_count + ids.length },
           k + ids.length) := by
  induction ids with
  | nil => intro s k; simp
  | cons i rest ih =>
      intro s k
      simp only [List.foldl_cons, doInstance, writerow]
      rw [ih]
      simp [St.mk.injEq, Prod.mk.injEq, instanceRow, List.append_assoc,
        Nat.add_assoc, Nat.add_comm, Nat.add_left_comm]

theorem resvFold_eq (a r : String) (resvs : List Reservation) :
    ∀ (s : St) (k : Nat),
      resvs.foldl (doReservation a r) (s, k)
        = ({ s with
              rows := s.rows ++
                ((resvs.map Reservation.instances).flatten.map
                  (instanceRow a r)),
              instance_count := s.instance_count +
                (resvs.map Reservation.instances).flatten.length },
           k + (resvs.map Reservation.instances).flatten.length) := by
  induction resvs with
  | nil => intro s k; simp
  | cons resv rest ih =>
      intro s k
      simp only [List.foldl_cons, doReservation]
      rw [instFold_eq, ih]
      simp [St.mk.injEq, Prod.mk.injEq, List.append_assoc,
        Nat.add_assoc, Nat.add_comm, Nat.add_left_comm]

theorem ec2Section_eq (env : Env) (a r : String) (s : St) :
    ec2Section env a r s
      = ({ s with rows := s.rows ++ pairInstanceRows env a r,
                  instance_count := s.instance_count +
                    (pairInstanceIds env a r).length,
                  events := s.events ++ pairInstanceEvs env a r },
         (pairInstanceIds env a r).length) := by
  unfold ec2Section pairInstanceRows pairInstanceIds pairInstanceEvs
  match h : env.ec2Pages a r with
  | .clientError => simp [emit]
  | .ok [] => simp [firstPageIds]
  | .ok (p :: rest) =>
      dsimp only
      rw [resvFold_eq]
      simp [firstPageIds, pageInstanceIds]

/-! ### Characterization of the EKS section -/

theorem nodeFold_eq (a r : String) (ns : List String) :
    ∀ (s : St) (k : Nat),
      ns.foldl (doNode a r) (s, k)
        = ({ s with rows := s.rows ++ ns.map (nodeRow a r),
                    node_count := s.node_count + ns.length },
           k + ns.length) := by
  induction ns with
  | nil => intro s k; simp
  | cons n rest ih =>
      intro s k
      simp only [List.foldl_cons, doNode, writerow]
      rw [ih]
      simp [St.mk.injEq, Prod.mk.injEq, nodeRow, List.append_assoc,
        Nat.add_assoc, Nat.add_comm, Nat.add_left_comm]

theorem ngLoop_eq (a r cluster : String) (e : EksEnv) (ngs : List String) :
    ∀ (s : St) (anc : Nat),
      ngLoop a r cluster e ngs (s, anc)
        = ({ s with
              rows := s.rows ++
                (ngNodeNames e cluster ngs).1.map (nodeRow a r),
              node_count := s.node_count +
                (ngNodeNames e cluster ngs).1.length },
           anc + (ngNodeNames e cluster ngs).1.length,
           (ngNodeNames e cluster ngs).2) := by
  induction ngs with
  | nil => intro s anc; simp [ngLoop, ngNodeNames]
  | cons ng rest ih =>
      intro s anc
      cases hdn : e.describeNodegroup cluster ng with
      | clientError => simp [ngLoop, ngNodeNames, hdn]
      | ok d =>
          simp only [ngLoop, ngNodeNames, hdn]
          rw [nodeFold_eq, ih]
          rcases hng : ngNodeNames e cluster rest with ⟨ns, f⟩
          simp [hng, St.mk.injEq, Prod.mk.injEq, List.append_assoc,
            Nat.add_assoc, Nat.add_comm, Nat.add_left_comm]

theorem clusterBody_eq (a r : String) (e : EksEnv) (s : St) (anc : Nat)
    (cluster : String) :
    clusterBody a r e (s, anc) cluster
      = ({ s with
            rows := s.rows ++ (clusterNodeNames e cluster).map (nodeRow a r),
            node_count := s.node_count + (clusterNodeNames e cluster).length,
            events := s.events ++ clusterEvs a r e cluster },
         anc + (clusterNodeNames e cluster).length) := by
  unfold clusterBody clusterNodeNames clusterEvs
  cases hln : e.listNodegroups cluster with
  | clientError => simp [emit]
  | ok ngs =>
      dsimp only
      rw [ngLoop_eq]
      rcases hng : ngNodeNames e cluster ngs with ⟨ns, f⟩
      cases f <;>
        simp [emit, hng, St.mk.injEq, Prod.mk.injEq, List.append_assoc]

theorem clusterFold_eq (a r : String) (e : EksEnv) (cs : List String) :
    ∀ (s : St) (k : Nat),
      cs.foldl (clusterBody a r e) (s, k)
        = ({ s with
              rows := s.rows ++
                ((cs.map (clusterNodeNames e)).flatten).map (nodeRow a r),
              node_count := s.node_count +
                (cs.map (clusterNodeNames e)).flatten.length,
              events := s.events ++ (cs.map (clusterEvs a r e)).flatten },
           k + (cs.map (clusterNodeNames e)).flatten.length) := by
  induction cs with
  | nil => intro s k; simp
  | cons c rest ih =>
      intro s k
      simp only [List.foldl_cons]
      rw [clusterBody_eq, ih]
      simp [St.mk.injEq, Prod.mk.injEq, List.append_assoc,
        Nat.add_assoc, Nat.add_comm, Nat.add_left_comm]

theorem eksSection_eq (a r : String) (e : EksEnv) (s : St) :
    eksSection a r e s
      = ({ s with rows := s.rows ++ (eksNodeNames e).map (nodeRow a r),
                  node_count := s.node_count + (eksNodeNames e).length,
                  events := s.events ++ eksEvs a r e },
         (eksNodeNames e).length) := by
  unfold eksSection eksNodeNames eksEvs
  cases e.listClusters with
  | clientError => simp [emit]
  | ok cs =>
      dsimp only
      rw [clusterFold_eq]
      simp

/-! ### Characterization of the region, account and AWS loops -/

theorem regionBody_eq (env : Env) (a : String) (s : St) (r : String) :
    regionBody env a s r
      = { s with rows := s.rows ++ pairRows env a r,
                 instance_count := s.instance_count +
                   (pairInstanceIds env a r).length,
                 node_count := s.node_count + (pairNodeNames env a r).length,
                 events := s.events ++ pairEvs env a r,
                 acct_pod := some 0 } := by
  unfold regionBody
  dsimp only
  rw [ec2Section_eq]
  dsimp only
  rw [eksSection_eq]
  dsimp only
  by_cases hc : 0 < (pairInstanceIds env a r).length ∨
      0 < (eksNodeNames (env.eks a r)).length
  · rw [if_pos hc]
    simp [emit, pairEvs, pairSummaryEvs, pairRows, pairNodeNames,
      pairNodeRows, hc, St.mk.injEq, List.append_assoc]
  · rw [if_neg hc]
    simp [emit, pairEvs, pairSummaryEvs, pairRows, pairNodeNames,
      pairNodeRows, hc, St.mk.injEq, List.append_assoc]

theorem regionFold_eq (env : Env) (a : String) (rs : List String) :
    ∀ (s : St),
      rs.foldl (regionBody env a) s
        = { s with rows := s.rows ++ (rs.map (pairRows env a)).flatten,
                   instance_count := s.instance_count +
                     ((rs.map (pairInstanceIds env a)).map List.length).sum,
                   node_count := s.node_count +
                     ((rs.map (pairNodeNames env a)).map List.length).sum,
                   events := s.events ++ (rs.map (pairEvs env a)).flatten,
                   acct_pod := acctPodAfter rs s.acct_pod } := by
  induction rs with
  | nil => intro s; simp [acctPodAfter]
  | cons r rest ih =>
      intro s
      simp only [List.foldl_cons]
      rw [regionBody_eq, ih]
      have hap : acctPodAfter rest (some 0) = some 0 := by
        cases rest <;> simp [acctPodAfter]
      simp [hap, acctPodAfter, St.mk.injEq, List.append_assoc,
        Nat.add_assoc, Nat.add_comm, Nat.add_left_comm]

theorem accountBody_eq (env : Env) (s : St) (a : String) :
    accountBody env s a
      = if keepAccount a then
          { s with rows := s.rows ++ accountRows env a,
                   instance_count := s.instance_count +
                     accountInstanceLen env a,
                   node_count := s.node_count + accountNodeLen env a,
                   events := s.events ++ accountEvs env a,
                   acct_pod := acctPodAfter (regionsOf env.availableRegions)
                     s.acct_pod }
        else s := by
  unfold accountBody
  by_cases hk : keepAccount a
  · rw [if_pos hk, if_pos hk, regionFold_eq]
    simp [emit, accountRows, accountEvs, accountInstanceLen, accountNodeLen,
      St.mk.injEq, List.append_assoc]
  · rw [if_neg hk, if_neg hk]

theorem awsAcctPod_cons_keep (env : Env) (a : String) (rest : List String)
    (prev : Option Nat) (hk : keepAccount a = true) :
    awsAcctPodOf env rest (acctPodAfter (regionsOf env.availableRegions) prev)
      = awsAcctPodOf env (a :: rest) prev := by
  unfold awsAcctPodOf acctPodAfter
  cases hr : (regionsOf env.availableRegions).isEmpty <;>
    cases ha : rest.any keepAccount <;>
      simp [hk, hr, ha, List.any_cons]

theorem credFold_eq (env : Env) (accts : List String) :
    ∀ (s : St),
      accts.foldl (accountBody env) s
        = { s with rows := s.rows ++ awsRowsOf env accts,
                   instance_count := s.instance_count +
                     awsInstanceLenOf env accts,
                   node_count := s.node_count + awsNodeLenOf env accts,
                   events := s.events ++ awsEvsOf env accts,
                   acct_pod := awsAcctPodOf env accts s.acct_pod } := by
  induction accts with
  | nil =>
      intro s
      simp [awsRowsOf, awsInstanceLenOf, awsNodeLenOf, awsEvsOf, awsAcctPodOf]
  | cons a rest ih =>
      intro s
      simp only [List.foldl_cons]
      rw [accountBody_eq]
      by_cases hk : keepAccount a
      · rw [if_pos hk, ih, ← awsAcctPod_cons_keep env a rest s.acct_pod hk]
        simp [awsRowsOf, awsInstanceLenOf, awsNodeLenOf, awsEvsOf, hk,
          List.filter_cons, St.mk.injEq, List.append_assoc,
          Nat.add_assoc, Nat.add_comm, Nat.add_left_comm]
      · rw [ih]
        have hk' : keepAccount a = false := by
          simpa using hk
        simp [awsRowsOf, awsInstanceLenOf, awsNodeLenOf, awsEvsOf,
          awsAcctPodOf, hk', List.filter_cons, List.any_cons,
          St.mk.injEq]

theorem awsSection_eq (env : Env) (s : St) :
    awsSection env s
      = { s with rows := s.rows ++ awsRows env,
                 instance_count := s.instance_count + awsInstanceLen env,
                 node_count := s.node_count + awsNodeLen env,
                 events := s.events ++ awsEvs env,
                 acct_pod := awsAcctPodOf env env.credentials s.acct_pod } := by
  unfold awsSection awsRows awsInstanceLen awsNodeLen awsEvs
  rw [credFold_eq]

/-! ### Characterization of the pod section -/

theorem podLoop_some (ctx : String) (pods : List (String × String)) :
    ∀ (s : St) (k : Nat), s.acct_pod = some k →
      podLoop ctx pods s
        = ({ s with rows := s.rows ++ pods.map (podRow ctx),
                    pod_count := s.pod_count + pods.length,
                    acct_pod := some (k + pods.length) }, false) := by
  induction pods with
  | nil =>
      intro s k h
      simp [podLoop, ← h]
  | cons pod rest ih =>
      intro s k h
      simp only [podLoop, writerow, h]
      rw [ih _ (k + 1) rfl]
      simp [podRow, St.mk.injEq, Prod.mk.injEq, List.append_assoc,
        Nat.add_assoc, Nat.add_comm, Nat.add_left_comm]

theorem ctxLoop_ok (ctxs : List KubeContext) :
    ∀ (s : St) (k : Nat), s.acct_pod = some k →
      (∀ c ∈ ctxs, c.openRes = KubeOpen.ok ∧ c.query ≠ PodQuery.otherFault) →
      ctxLoop ctxs s
        = ({ s with rows := s.rows ++ ctxsRows ctxs,
                    pod_count := s.pod_count + (ctxsRows ctxs).length,
                    events := s.events ++ ctxsEvs ctxs,
                    acct_pod := some (k + (ctxsRows ctxs).length) },
           .completed) := by
  induction ctxs with
  | nil =>
      intro s k h _
      simp [ctxLoop, ctxsRows, ctxsEvs, ← h]
  | cons c rest ih =>
      intro s k h hall
      obtain ⟨hopen, hq⟩ := hall c (by simp)
      have hrest : ∀ c ∈ rest, c.openRes = KubeOpen.ok ∧
          c.query ≠ PodQuery.otherFault :=
        fun c hc => hall c (by simp [hc])
      simp only [ctxLoop, hopen]
      cases hqv : c.query with
      | otherFault => exact absurd hqv hq
      | apiFault =>
          rw [ih _ k (by simp [emit, h]) hrest]
          simp [emit, ctxsRows, ctxsEvs, ctxRowsOk, ctxEvsOk, hqv,
            St.mk.injEq, Prod.mk.injEq, List.append_assoc]
      | ok pods =>
          dsimp only
          rw [podLoop_some _ _ _ k (by simp [emit, h])]
          dsimp only
          rw [ih _ (k + pods.length) (by simp) hrest]
          simp [emit, ctxsRows, ctxsEvs, ctxRowsOk, ctxEvsOk, hqv,
            St.mk.injEq, Prod.mk.injEq, List.append_assoc,
            Nat.add_assoc, Nat.add_comm, Nat.add_left_comm]

theorem podLoop_delta (ctx : String) (pods : List (String × String)) :
    ∀ (s : St), ∃ d : List Row,
      (podLoop ctx pods s).1.rows = s.rows ++ d ∧
      d.all isPodRow = true ∧
      (podLoop ctx pods s).1.pod_count = s.pod_count + d.length ∧
      (podLoop ctx pods s).1.instance_count = s.instance_count ∧
      (podLoop ctx pods s).1.node_count = s.node_count ∧
      (podLoop ctx pods s).1.events = s.events := by
  induction pods with
  | nil =>
      intro s
      exact ⟨[], by simp [podLoop]⟩
  | cons pod rest ih =>
      intro s
      simp only [podLoop, writerow]
      cases hap : s.acct_pod with
      | none =>
          refine ⟨[podRow ctx pod], ?_⟩
          simp [podRow, isPodRow, rowType]
      | some k =>
          obtain ⟨d, h1, h2, h3, h4, h5, h6⟩ := ih
            { s with rows := s.rows ++ [["pod", pod.1, ctx, pod.2]],
                     pod_count := s.pod_count + 1, acct_pod := some (k + 1) }
          refine ⟨podRow ctx pod :: d, ?_, ?_, ?_, ?_, ?_, ?_⟩ <;>
            simp_all [podRow, isPodRow, rowType, List.append_assoc,
              Nat.add_assoc, Nat.add_comm, Nat.add_left_comm]

theorem ctxLoop_delta (ctxs : List KubeContext) :
    ∀ (s : St), ∃ (d : List Row) (evd : List Ev),
      (ctxLoop ctxs s).1.rows = s.rows ++ d ∧
      d.all isPodRow = true ∧
      (ctxLoop ctxs s).1.pod_count = s.pod_count + d.length ∧
      (ctxLoop ctxs s).1.instance_count = s.instance_count ∧
      (ctxLoop ctxs s).1.node_count = s.node_count ∧
      (ctxLoop ctxs s).1.events = s.events ++ evd ∧
      evd.all isPodEv = true := by
  induction ctxs with
  | nil =>
      intro s
      exact ⟨[], [], by simp [ctxLoop]⟩
  | cons c rest ih =>
      intro s
      cases hopen : c.openRes with
      | otherFault => exact ⟨[], [], by simp [ctxLoop, hopen]⟩
      | apiFault => exact ⟨[], [], by simp [ctxLoop, hopen]⟩
      | ok =>
          simp only [ctxLoop, hopen]
          cases hqv : c.query with
          | otherFault =>
              refine ⟨[], [.contextEntered c.name], ?_⟩
              simp [emit, isPodEv]
          | apiFault =>
              obtain ⟨d, evd, h1, h2, h3, h4, h5, h6, h7⟩ := ih
                (emit (.podQueryFault c.name) (emit (.contextEntered c.name) s))
              refine ⟨d, .contextEntered c.name :: .podQueryFault c.name :: evd,
                ?_, h2, ?_, ?_, ?_, ?_, ?_⟩ <;>
                simp_all [emit, isPodEv, List.append_assoc]
          | ok pods =>
              dsimp only
              obtain ⟨d1, p1, p2, p3, p4, p5, p6⟩ :=
                podLoop_delta c.name pods (emit (.contextEntered c.name) s)
              rcases hp : podLoop c.name pods (emit (.contextEntered c.name) s)
                with ⟨s1, crashed⟩
              rw [hp] at p1 p3 p4 p5 p6
              cases crashed with
              | true =>
                  refine ⟨d1, [.contextEntered c.name], ?_, p2, ?_, ?_, ?_, ?_, ?_⟩ <;>
                    simp_all [emit, isPodEv, List.append_assoc]
              | false =>
                  obtain ⟨d2, evd2, h1, h2, h3, h4, h5, h6, h7⟩ := ih s1
                  refine ⟨d1 ++ d2, .contextEntered c.name :: evd2,
                    ?_, ?_, ?_, ?_, ?_, ?_, ?_⟩ <;>
                    simp_all [emit, isPodEv, List.append_assoc,
                      Nat.add_assoc, Nat.add_comm, Nat.add_left_comm]

theorem podSection_delta (env : Env) (s : St) :
    ∃ (d : List Row) (evd : List Ev),
      (podSection env s).1.rows = s.rows ++ d ∧
      d.all isPodRow = true ∧
      (podSection env s).1.pod_count = s.pod_count + d.length ∧
      (podSection env s).1.instance_count = s.instance_count ∧
      (podSection env s).1.node_count = s.node_count ∧
      (podSection env s).1.events = s.events ++ evd ∧
      evd.all isPodEv = true := by
  unfold podSection
  cases hctx : env.listContexts with
  | otherFault => exact ⟨[], [], by simp⟩
  | apiFault => exact ⟨[], [.podSectionFault], by simp [emit, isPodEv]⟩
  | ok ctxs =>
      obtain ⟨d, evd, h1, h2, h3, h4, h5, h6, h7⟩ := ctxLoop_delta ctxs s
      rcases hcl : ctxLoop ctxs s with ⟨s1, outcome⟩
      rw [hcl] at h1 h3 h4 h5 h6
      cases outcome with
      | completed => exact ⟨d, evd, by simp_all⟩
      | abortedApi =>
          refine ⟨d, evd ++ [.podSectionFault], ?_⟩
          simp_all [emit, isPodEv, List.append_assoc]
      | crashed => exact ⟨d, evd, by simp_all⟩

theorem runInventory_spec (env : Env) :
    ∃ (d : List Row) (evd : List Ev),
      (runInventory env).rows = headerRow :: (awsRows env ++ d) ∧
      d.all isPodRow = true ∧
      (runInventory env).instance_count = awsInstanceLen env ∧
      (runInventory env).node_count = awsNodeLen env ∧
      (runInventory env).pod_count = d.length ∧
      (runInventory env).events = awsEvs env ++ evd ∧
      evd.all (fun e => isPodEv e || isSummaryEv e) = true := by
  unfold runInventory
  rw [awsSection_eq]
  obtain ⟨d, evd, h1, h2, h3, h4, h5, h6, h7⟩ :=
    podSection_delta env
      { initSt with rows := initSt.rows ++ awsRows env,
                    instance_count := initSt.instance_count + awsInstanceLen env,
                    node_count := initSt.node_count + awsNodeLen env,
                    events := initSt.events ++ awsEvs env,
                    acct_pod := awsAcctPodOf env env.credentials initSt.acct_pod }
  rcases hps : podSection env _ with ⟨s1, st⟩
  rw [hps] at h1 h3 h4 h5 h6
  have hall : evd.all (fun e => isPodEv e || isSummaryEv e) = true := by
    rw [List.all_eq_true] at h7 ⊢
    intro e he
    simp [h7 e he]
  cases st with
  | completed =>
      refine ⟨d, evd ++ [.summary s1.instance_count s1.node_count s1.pod_count],
        ?_, h2, ?_, ?_, ?_, ?_, ?_⟩ <;>
        simp_all [initSt, isSummaryEv, List.append_assoc]
  | crashed =>
      refine ⟨d, evd, ?_, h2, ?_, ?_, ?_, ?_, hall⟩ <;>
        simp_all [initSt, List.append_assoc]

/-! ### Row counting lemmas -/

theorem countType_append (t : String) (l1 l2 : List Row) :
    countType t (l1 ++ l2) = countType t l1 + countType t l2 :=
  List.countP_append _ _ _

theorem countType_inst_instRows (a r : String) (ids : List String) :
    countType "instance" (ids.map (instanceRow a r)) = ids.length := by
  simp [countType, instanceRow, rowType, Function.comp]

theorem countType_node_instRows (a r : String) (ids : List String) :
    countType "node" (ids.map (instanceRow a r)) = 0 := by
  simp [countType, instanceRow, rowType, Function.comp]

theorem countType_pod_instRows (a r : String) (ids : List String) :
    countType "pod" (ids.map (instanceRow a r)) = 0 := by
  simp [countType, instanceRow, rowType, Function.comp]

theorem countType_inst_nodeRows (a r : String) (ns : List String) :
    countType "instance" (ns.map (nodeRow a r)) = 0 := by
  simp [countType, nodeRow, rowType, Function.comp]

theorem countType_node_nodeRows (a r : String) (ns : List String) :
    countType "node" (ns.map (nodeRow a r)) = ns.length := by
  simp [countType, nodeRow, rowType, Function.comp]

theorem countType_pod_nodeRows (a r : String) (ns : List String) :
    countType "pod" (ns.map (nodeRow a r)) = 0 := by
  simp [countType, nodeRow, rowType, Function.comp]

theorem countType_all_pod (d : List Row) (h : d.all isPodRow = true) :
    countType "pod" d = d.length ∧ countType "instance" d = 0 ∧
      countType "node" d = 0 := by
  induction d with
  | nil => simp [countType]
  | cons row rest ih =>
      rw [List.all_cons, Bool.and_eq_true] at h
      obtain ⟨h1, h2⟩ := h
      obtain ⟨i1, i2, i3⟩ := ih h2
      have ht : rowType row = "pod" := by
        simpa [isPodRow] using h1
      simp [countType, List.countP_cons, ht] at i1 i2 i3 ⊢
      exact ⟨i1, i2, i3⟩

theorem countType_inst_regionRows (env : Env) (a : String) (rs : List String) :
    countType "instance" ((rs.map (pairRows env a)).flatten)
      = ((rs.map (pairInstanceIds env a)).map List.length).sum := by
  induction rs with
  | nil => simp [countType]
  | cons r rest ih =>
      simp only [List.map_cons, List.flatten_cons, countType_append, ih,
        pairRows, pairInstanceRows, pairNodeRows]
      rw [countType_inst_instRows, countType_inst_nodeRows]
      simp

theorem countType_node_regionRows (env : Env) (a : String) (rs : List String) :
    countType "node" ((rs.map (pairRows env a)).flatten)
      = ((rs.map (pairNodeNames env a)).map List.length).sum := by
  induction rs with
  | nil => simp [countType]
  | cons r rest ih =>
      simp only [List.map_cons, List.flatten_cons, countType_append, ih,
        pairRows, pairInstanceRows, pairNodeRows]
      rw [countType_node_instRows, countType_node_nodeRows]
      simp

theorem countType_pod_regionRows (env : Env) (a : String) (rs : List String) :
    countType "pod" ((rs.map (pairRows env a)).flatten) = 0 := by
  induction rs with
  | nil => simp [countType]
  | cons r rest ih =>
      simp only [List.map_cons, List.flatten_cons, countType_append, ih,
        pairRows, pairInstanceRows, pairNodeRows]
      rw [countType_pod_instRows, countType_pod_nodeRows]

theorem countType_inst_accountsRows (env : Env) (m : List String) :
    countType "instance" ((m.map (accountRows env)).flatten)
      = (m.map (accountInstanceLen env)).sum := by
  induction m with
  | nil => simp [countType]
  | cons a rest ih =>
      simp only [List.map_cons, List.flatten_cons, countType_append, ih,
        accountRows, accountInstanceLen]
      rw [countType_inst_regionRows]
      simp

theorem countType_node_accountsRows (env : Env) (m : List String) :
    countType "node" ((m.map (accountRows env)).flatten)
      = (m.map (accountNodeLen env)).sum := by
  induction m with
  | nil => simp [countType]
  | cons a rest ih =>
      simp only [List.map_cons, List.flatten_cons, countType_append, ih,
        accountRows, accountNodeLen]
      rw [countType_node_regionRows]
      simp

theorem countType_pod_accountsRows (env : Env) (m : List String) :
    countType "pod" ((m.map (accountRows env)).flatten) = 0 := by
  induction m with
  | nil => simp [countType]
  | cons a rest ih =>
      simp only [List.map_cons, List.flatten_cons, countType_append, ih,
        accountRows]
      rw [countType_pod_regionRows]

theorem countType_inst_awsRows (env : Env) :
    countType "instance" (awsRows env) = awsInstanceLen env := by
  unfold awsRows awsRowsOf awsInstanceLen awsInstanceLenOf
  exact countType_inst_accountsRows env _

theorem countType_node_awsRows (env : Env) :
    countType "node" (awsRows env) = awsNodeLen env := by
  unfold awsRows awsRowsOf awsNodeLen awsNodeLenOf
  exact countType_node_accountsRows env _

theorem countType_pod_awsRows (env : Env) :
    countType "pod" (awsRows env) = 0 := by
  unfold awsRows awsRowsOf
  exact countType_pod_accountsRows env _

/-- C3: at program end, each of the three counters equals the number of
rows of the corresponding resource type written to the output file: the
counters are incremented exactly once per emitted record of their
type. -/
theorem C3_counters_match_rows (env : Env) :
    (runInventory env).instance_count
        = countType "instance" (runInventory env).rows ∧
      (runInventory env).node_count
        = countType "node" (runInventory env).rows ∧
      (runInventory env).pod_count
        = countType "pod" (runInventory env).rows := by
  obtain ⟨d, evd, h1, h2, h3, h4, h5, h6, h7⟩ := runInventory_spec env
  obtain ⟨p1, p2, p3⟩ := countType_all_pod d h2
  rw [h1, h3, h4, h5]
  have hh : ∀ t : String, countType t (headerRow :: (awsRows env ++ d))
      = countType t [headerRow] + (countType t (awsRows env) + countType t d) := by
    intro t
    rw [show headerRow :: (awsRows env ++ d)
        = [headerRow] ++ (awsRows env ++ d) from rfl]
    rw [countType_append, countType_append]
  rw [hh, hh, hh, countType_inst_awsRows, countType_node_awsRows,
    countType_pod_awsRows, p1, p2, p3]
  simp [countType, headerRow, rowType]

/-! ### Which events each section can emit -/

theorem accFn_pairInstanceEvs (env : Env) (a r : String) :
    (pairInstanceEvs env a r).filterMap accountEvFn = [] := by
  unfold pairInstanceEvs
  cases env.ec2Pages a r <;> simp [accountEvFn]

theorem accFn_clusterEvs (a r : String) (e : EksEnv) (c : String) :
    (clusterEvs a r e c).filterMap accountEvFn = [] := by
  unfold clusterEvs
  cases e.listNodegroups c with
  | clientError => simp [accountEvFn]
  | ok ngs => split <;> simp [accountEvFn]

theorem accFn_eksEvs (a r : String) (e : EksEnv) :
    (eksEvs a r e).filterMap accountEvFn = [] := by
  unfold eksEvs
  cases e.listClusters with
  | clientError => simp [accountEvFn]
  | ok cs =>
      induction cs with
      | nil => simp
      | cons c rest ih =>
          simp [List.filterMap_append, accFn_clusterEvs, ih]

theorem accFn_pairEvs (env : Env) (a r : String) :
    (pairEvs env a r).filterMap accountEvFn = [] := by
  unfold pairEvs pairSummaryEvs
  simp [List.filterMap_append, accountEvFn, accFn_pairInstanceEvs,
    accFn_eksEvs, apply_ite (List.filterMap accountEvFn)]

theorem accFn_flatPairEvs (env : Env) (a : String) (rs : List String) :
    ((rs.map (pairEvs env a)).flatten).filterMap accountEvFn = [] := by
  induction rs with
  | nil => simp
  | cons r rest ih => simp [List.filterMap_append, accFn_pairEvs, ih]

theorem accFn_accountEvs (env : Env) (a : String) :
    (accountEvs env a).filterMap accountEvFn = [a] := by
  unfold accountEvs
  rw [List.filterMap_cons]
  dsimp only [accountEvFn]
  rw [accFn_flatPairEvs]

theorem accFn_accountsFlatten (env : Env) (m : List String) :
    ((m.map (accountEvs env)).flatten).filterMap accountEvFn = m := by
  induction m with
  | nil => simp
  | cons a rest ih =>
      simp [List.filterMap_append, accFn_accountEvs, ih]

theorem accountsEnteredEv_awsEvs (env : Env) :
    accountsEnteredEv (awsEvs env) = env.credentials.filter keepAccount := by
  unfold accountsEnteredEv awsEvs awsEvsOf
  exact accFn_accountsFlatten env _

theorem accFn_podlike (e : Ev) (h : (isPodEv e || isSummaryEv e) = true) :
    accountEvFn e = none := by
  cases e <;> simp_all [isPodEv, isSummaryEv, accountEvFn]

theorem regFn_pairInstanceEvs (env : Env) (a r : String) :
    (pairInstanceEvs env a r).filterMap regionEvFn = [] := by
  unfold pairInstanceEvs
  cases env.ec2Pages a r <;> simp [regionEvFn]

theorem regFn_clusterEvs (a r : String) (e : EksEnv) (c : String) :
    (clusterEvs a r e c).filterMap regionEvFn = [] := by
  unfold clusterEvs
  cases e.listNodegroups c with
  | clientError => simp [regionEvFn]
  | ok ngs => split <;> simp [regionEvFn]

theorem regFn_eksEvs (a r : String) (e : EksEnv) :
    (eksEvs a r e).filterMap regionEvFn = [] := by
  unfold eksEvs
  cases e.listClusters with
  | clientError => simp [regionEvFn]
  | ok cs =>
      induction cs with
      | nil => simp
      | cons c rest ih =>
          simp [List.filterMap_append, regFn_clusterEvs, ih]

theorem regFn_pairEvs (env : Env) (a r : String) :
    (pairEvs env a r).filterMap regionEvFn = [(a, r)] := by
  unfold pairEvs pairSummaryEvs
  simp [List.filterMap_append, regionEvFn, regFn_pairInstanceEvs,
    regFn_eksEvs, apply_ite (List.filterMap regionEvFn)]

theorem regFn_flatPairEvs (env : Env) (a : String) (rs : List String) :
    ((rs.map (pairEvs env a)).flatten).filterMap regionEvFn
      = rs.map (fun r => (a, r)) := by
  induction rs with
  | nil => simp
  | cons r rest ih => simp [List.filterMap_append, regFn_pairEvs, ih]

theorem regFn_accountEvs (env : Env) (a : String) :
    (accountEvs env a).filterMap regionEvFn
      = (regionsOf env.availableRegions).map (fun r => (a, r)) := by
  unfold accountEvs
  rw [List.filterMap_cons]
  dsimp only [regionEvFn]
  rw [regFn_flatPairEvs]

theorem regFn_accountsFlatten (env : Env) (m : List String) :
    ((m.map (accountEvs env)).flatten).filterMap regionEvFn
      = (m.map (fun a =>
          (regionsOf env.availableRegions).map (fun r => (a, r)))).flatten := by
  induction m with
  | nil => simp
  | cons a rest ih =>
      simp [List.filterMap_append, regFn_accountEvs, ih]

theorem pairsEnteredEv_awsEvs (env : Env) :
    pairsEnteredEv (awsEvs env) = pairsList env := by
  unfold pairsEnteredEv awsEvs awsEvsOf pairsList
  exact regFn_accountsFlatten env _

theorem regFn_podlike (e : Ev) (h : (isPodEv e || isSummaryEv e) = true) :
    regionEvFn e = none := by
  cases e <;> simp_all [isPodEv, isSummaryEv, regionEvFn]

theorem filterMap_nil_podlike {α : Type} (f : Ev → Option α)
    (hf : ∀ e, (isPodEv e || isSummaryEv e) = true → f e = none)
    (evd : List Ev) (h : evd.all (fun e => isPodEv e || isSummaryEv e) = true) :
    evd.filterMap f = [] := by
  refine List.filterMap_eq_nil_iff.mpr ?_
  intro e he
  exact hf e (List.all_eq_true.mp h e he)

/-! ### C4: region filtering -/

/-- C4: the enumerated region set is exactly the available-regions
response minus the fixed 12-entry denylist: no denylisted region
survives, and no region outside the denylist is dropped. -/
theorem C4_regions_filter (avail : List String) (r : String) :
    (r ∈ regionsOf avail ↔ (r ∈ avail ∧ r ∉ unused_regions)) ∧
      unused_regions.length = 12 := by
  refine ⟨?_, rfl⟩
  constructor
  · intro h
    rw [regionsOf, List.mem_filter] at h
    refine ⟨h.1, fun hmem => ?_⟩
    have := h.2
    simp at this
    exact this hmem
  · intro h
    rw [regionsOf, List.mem_filter]
    refine ⟨h.1, ?_⟩
    simpa using h.2

/-- Witness for C4 at a concrete response: the denylisted af-south-1 is
dropped and us-east-1 is kept. -/
theorem C4_regions_filter_witness :
    "af-south-1" ∉ regionsOf ["af-south-1", "us-east-1"] ∧
      "us-east-1" ∈ regionsOf ["af-south-1", "us-east-1"] := by
  constructor
  · intro h
    exact ((C4_regions_filter ["af-south-1", "us-east-1"] "af-south-1").1.mp
      h).2 (by simp [unused_regions])
  · exact (C4_regions_filter ["af-south-1", "us-east-1"] "us-east-1").1.mpr
      ⟨by simp, by simp [unused_regions]⟩

/-! ### Row membership lemmas -/

theorem mem_pairRows (env : Env) (a r : String) (row : Row)
    (h : row ∈ pairRows env a r) :
    (isInstanceRow row || isNodeRow row) = true ∧ rowScope row = a := by
  unfold pairRows pairInstanceRows pairNodeRows at h
  rcases List.mem_append.mp h with h | h
  · obtain ⟨i, _, rfl⟩ := List.mem_map.mp h
    simp [instanceRow, isInstanceRow, isNodeRow, rowType, rowScope]
  · obtain ⟨n, _, rfl⟩ := List.mem_map.mp h
    simp [nodeRow, isInstanceRow, isNodeRow, rowType, rowScope]

theorem mem_accountRows (env : Env) (a : String) (row : Row)
    (h : row ∈ accountRows env a) :
    (isInstanceRow row || isNodeRow row) = true ∧ rowScope row = a := by
  unfold accountRows at h
  rw [List.mem_flatten] at h
  obtain ⟨l, hl, hrow⟩ := h
  obtain ⟨r, _, rfl⟩ := List.mem_map.mp hl
  exact mem_pairRows env a r row hrow

theorem mem_awsRows (env : Env) (row : Row) (h : row ∈ awsRows env) :
    (isInstanceRow row || isNodeRow row) = true ∧
      rowScope row ∈ env.credentials.filter keepAccount := by
  unfold awsRows awsRowsOf at h
  rw [List.mem_flatten] at h
  obtain ⟨l, hl, hrow⟩ := h
  obtain ⟨a, ha, rfl⟩ := List.mem_map.mp hl
  obtain ⟨h1, h2⟩ := mem_accountRows env a row hrow
  exact ⟨h1, h2 ▸ ha⟩

/-! ### C5: profile filtering -/

/-- C5: the accounts entered in the account loop are exactly the
profiles that are neither the literal default profile nor contain the
substring netsec, in listing order; and every instance or node row
written carries one of those kept profiles in its scope field, so
skipped profiles produce no records. -/
theorem C5_profile_filter (env : Env) :
    accountsEnteredEv (runInventory env).events
        = env.credentials.filter keepAccount ∧
      (runInventory env).rows.all (rowFromKeptAccount env.credentials)
        = true := by
  obtain ⟨d, evd, h1, h2, h3, h4, h5, h6, h7⟩ := runInventory_spec env
  constructor
  · rw [h6]
    unfold accountsEnteredEv
    rw [List.filterMap_append,
      filterMap_nil_podlike accountEvFn accFn_podlike evd h7,
      List.append_nil]
    exact accountsEnteredEv_awsEvs env
  · rw [h1, List.all_eq_true]
    intro row hrow
    rcases List.mem_cons.mp hrow with hh | hm
    · subst hh
      simp [rowFromKeptAccount, headerRow, isInstanceRow, isNodeRow, rowType]
    · rcases List.mem_append.mp hm with haws | hd
      · obtain ⟨hclass, hmem⟩ := mem_awsRows env row haws
        simp only [rowFromKeptAccount, hclass, if_true]
        simpa using hmem
      · have hp : rowType row = "pod" := by
          simpa [isPodRow] using List.all_eq_true.mp h2 row hd
        simp [rowFromKeptAccount, isInstanceRow, isNodeRow, hp]

/-! ### C8: output file layout -/

/-- C8: the output file is exactly the four-field header row followed by
the record rows in discovery order: for each kept account in listing
order, for each kept region in listing order, that pair's instance rows
then its node rows, and all pod rows at the very end. -/
theorem C8_output_layout (env : Env) :
    ∃ podRows : List Row,
      (runInventory env).rows = headerRow :: (awsRows env ++ podRows) ∧
      podRows.all isPodRow = true ∧
      (awsRows env).all (fun row => isInstanceRow row || isNodeRow row)
        = true := by
  obtain ⟨d, evd, h1, h2, h3, h4, h5, h6, h7⟩ := runInventory_spec env
  refine ⟨d, h1, h2, ?_⟩
  rw [List.all_eq_true]
  intro row hrow
  exact (mem_awsRows env row hrow).1

/-! ### C9: per-pair summary -/

theorem psCount_pairInstanceEvs (env : Env) (a r : String) :
    (pairInstanceEvs env a r).countP isPairSummaryEv = 0 := by
  unfold pairInstanceEvs
  cases env.ec2Pages a r <;> simp [isPairSummaryEv]

theorem psCount_clusterEvs (a r : String) (e : EksEnv) (c : String) :
    (clusterEvs a r e c).countP isPairSummaryEv = 0 := by
  unfold clusterEvs
  cases e.listNodegroups c with
  | clientError => simp [isPairSummaryEv]
  | ok ngs => split <;> simp [isPairSummaryEv]

theorem psCount_eksEvs (a r : String) (e : EksEnv) :
    (eksEvs a r e).countP isPairSummaryEv = 0 := by
  unfold eksEvs
  cases e.listClusters with
  | clientError => simp [isPairSummaryEv]
  | ok cs =>
      induction cs with
      | nil => simp
      | cons c rest ih =>
          simp [List.countP_append, psCount_clusterEvs, ih]

theorem psCount_pairEvs (env : Env) (a r : String) :
    (pairEvs env a r).countP isPairSummaryEv
      = if 0 < (pairInstanceIds env a r).length ∨
          0 < (pairNodeNames env a r).length then 1 else 0 := by
  unfold pairEvs pairSummaryEvs
  simp [List.countP_append, List.countP_cons, isPairSummaryEv,
    psCount_pairInstanceEvs, psCount_eksEvs,
    apply_ite (List.countP isPairSummaryEv)]

/-- C9: one region-loop iteration prints a per-pair summary line exactly
when the pair yielded at least one instance or at least one node; a pair
yielding neither prints no summary line and leaves the global counters
and the output rows unchanged. -/
theorem C9_pair_summary (env : Env) (a r : String) (s : St) :
    ((regionBody env a s r).events.countP isPairSummaryEv
        = s.events.countP isPairSummaryEv +
          (if 0 < (pairInstanceIds env a r).length ∨
              0 < (pairNodeNames env a r).length then 1 else 0)) ∧
      ((pairInstanceIds env a r).length = 0 →
        (pairNodeNames env a r).length = 0 →
          (regionBody env a s r).instance_count = s.instance_count ∧
          (regionBody env a s r).node_count = s.node_count ∧
          (regionBody env a s r).pod_count = s.pod_count ∧
          (regionBody env a s r).rows = s.rows) := by
  rw [regionBody_eq]
  constructor
  · dsimp only
    rw [List.countP_append, psCount_pairEvs]
  · intro h0 h1
    have hi : pairInstanceIds env a r = [] := List.length_eq_zero.mp h0
    have hn : pairNodeNames env a r = [] := List.length_eq_zero.mp h1
    simp [h0, h1, pairRows, pairInstanceRows, pairNodeRows, hi, hn]

/-- Witness for C9 at a pair with zero instances and zero nodes: no
summary line is counted and the counters and rows are untouched. -/
theorem C9_pair_summary_witness :
    (regionBody baseEnv "prod" initSt "us-east-1").instance_count
        = initSt.instance_count ∧
      (regionBody baseEnv "prod" initSt "us-east-1").node_count
        = initSt.node_count ∧
      (regionBody baseEnv "prod" initSt "us-east-1").pod_count
        = initSt.pod_count ∧
      (regionBody baseEnv "prod" initSt "us-east-1").rows = initSt.rows ∧
      (regionBody baseEnv "prod" initSt "us-east-1").events.countP
        isPairSummaryEv = 0 := by
  obtain ⟨hc, himp⟩ := C9_pair_summary baseEnv "prod" "us-east-1" initSt
  obtain ⟨i1, i2, i3, i4⟩ := himp rfl rfl
  refine ⟨i1, i2, i3, i4, ?_⟩
  rw [hc]
  simp [initSt]
  decide

/-! ### C10: the cluster loop iterates the original listing -/

theorem clusterFn_clusterEvs (a r : String) (e : EksEnv) (c : String) :
    (clusterEvs a r e c).filterMap clusterEvFn = [c] := by
  unfold clusterEvs
  cases e.listNodegroups c with
  | clientError => simp [clusterEvFn]
  | ok ngs => split <;> simp [clusterEvFn]

theorem clusterFn_flat (a r : String) (e : EksEnv) (cs : List String) :
    ((cs.map (clusterEvs a r e)).flatten).filterMap clusterEvFn = cs := by
  induction cs with
  | nil => simp
  | cons c rest ih =>
      rw [List.map_cons, List.flatten_cons, List.filterMap_append,
        clusterFn_clusterEvs, ih]
      rfl

theorem clusterFn_eksEvs (a r : String) (e : EksEnv) (cs : List String)
    (h : e.listClusters = .ok cs) :
    (eksEvs a r e).filterMap clusterEvFn = cs := by
  unfold eksEvs
  rw [h]
  exact clusterFn_flat a r e cs

/-- C10: the cluster loop visits exactly the clusters of the original
list-clusters response — in the embedding, as in Python, the loop
iterates the list value captured at loop entry, so the later rebindings
of the response variable inside the body (nodegroup listing and
description results) never change which clusters are visited, whatever
those inner calls return. -/
theorem C10_cluster_iteration (a r : String) (e : EksEnv) (s : St)
    (cs : List String) (h : e.listClusters = .ok cs) :
    clusterVisits ((eksSection a r e s).1.events)
      = clusterVisits s.events ++ cs := by
  rw [eksSection_eq]
  dsimp only
  unfold clusterVisits
  rw [List.filterMap_append, clusterFn_eksEvs a r e cs h]

/-- Witness for C10 on a collaborator whose nodegroup calls all fault:
both clusters are still visited. -/
theorem C10_cluster_iteration_witness :
    clusterVisits ((eksSection "prod" "us-east-1" c10eks initSt).1.events)
      = ["c1", "c2"] := by
  have h := C10_cluster_iteration "prod" "us-east-1" c10eks initSt
    ["c1", "c2"] rfl
  simpa [initSt, clusterVisits] using h

/-! ### C6: per-pair fault isolation -/

theorem pairInstanceIds_withEc2Fault (env : Env) (a0 r0 a r : String) :
    pairInstanceIds (withEc2Fault env a0 r0) a r
      = if a == a0 && r == r0 then [] else pairInstanceIds env a r := by
  unfold pairInstanceIds withEc2Fault
  dsimp only
  cases h : (a == a0 && r == r0) <;> simp [h]

theorem pairNodeNames_withEksFault (env : Env) (a0 r0 a r : String) :
    pairNodeNames (withEksFault env a0 r0) a r
      = if a == a0 && r == r0 then [] else pairNodeNames env a r := by
  unfold pairNodeNames withEksFault
  dsimp only
  cases h : (a == a0 && r == r0) <;> simp [h, eksNodeNames]

theorem filter_flatten_congr {α : Type} (p : Row → Bool) (f g : α → List Row)
    (h : ∀ x, (f x).filter p = (g x).filter p) (l : List α) :
    ((l.map f).flatten).filter p = ((l.map g).flatten).filter p := by
  induction l with
  | nil => rfl
  | cons x rest ih => simp [List.filter_append, h x, ih]

theorem filter_isNode_instRows (a r : String) (ids : List String) :
    (ids.map (instanceRow a r)).filter isNodeRow = [] := by
  simp [List.filter_map, Function.comp, isNodeRow, instanceRow, rowType]

theorem filter_isInstance_nodeRows (a r : String) (ns : List String) :
    (ns.map (nodeRow a r)).filter isInstanceRow = [] := by
  simp [List.filter_map, Function.comp, isInstanceRow, nodeRow, rowType]

theorem instExcept_instRows (a0 r0 a r : String) (ids : List String) :
    (ids.map (instanceRow a r)).filter (instExceptPred a0 r0)
      = if a == a0 && r == r0 then [] else ids.map (instanceRow a r) := by
  induction ids with
  | nil => cases h : (a == a0 && r == r0) <;> simp [h]
  | cons i rest ih =>
      have hpred : instExceptPred a0 r0 (instanceRow a r i)
          = !(a == a0 && r == r0) := by
        simp [instExceptPred, isInstanceRow, instanceRow, rowType,
          rowScope, rowLoc]
      cases h : (a == a0 && r == r0) <;>
        simp only [List.map_cons, List.filter_cons, hpred, h] at ih ⊢ <;>
          simp [ih]

theorem instExcept_nodeRows (a0 r0 a r : String) (ns : List String) :
    (ns.map (nodeRow a r)).filter (instExceptPred a0 r0) = [] := by
  simp [List.filter_map, Function.comp, instExceptPred, isInstanceRow,
    nodeRow, rowType]

theorem nodeExcept_nodeRows (a0 r0 a r : String) (ns : List String) :
    (ns.map (nodeRow a r)).filter (nodeExceptPred a0 r0)
      = if a == a0 && r == r0 then [] else ns.map (nodeRow a r) := by
  induction ns with
  | nil => cases h : (a == a0 && r == r0) <;> simp [h]
  | cons n rest ih =>
      have hpred : nodeExceptPred a0 r0 (nodeRow a r n)
          = !(a == a0 && r == r0) := by
        simp [nodeExceptPred, isNodeRow, nodeRow, rowType,
          rowScope, rowLoc]
      cases h : (a == a0 && r == r0) <;>
        simp only [List.map_cons, List.filter_cons, hpred, h] at ih ⊢ <;>
          simp [ih]

theorem nodeExcept_instRows (a0 r0 a r : String) (ids : List String) :
    (ids.map (instanceRow a r)).filter (nodeExceptPred a0 r0) = [] := by
  simp [List.filter_map, Function.comp, nodeExceptPred, isNodeRow,
    instanceRow, rowType]

theorem pairNodeRows_ec2Fault (env : Env) (a0 r0 a r : String) :
    pairNodeRows (withEc2Fault env a0 r0) a r = pairNodeRows env a r := rfl

theorem pairInstanceRows_eksFault (env : Env) (a0 r0 a r : String) :
    pairInstanceRows (withEksFault env a0 r0) a r
      = pairInstanceRows env a r := rfl

theorem pairRows_node_ec2 (env : Env) (a0 r0 a r : String) :
    (pairRows (withEc2Fault env a0 r0) a r).filter isNodeRow
      = (pairRows env a r).filter isNodeRow := by
  unfold pairRows pairInstanceRows
  rw [List.filter_append, List.filter_append, pairInstanceIds_withEc2Fault]
  cases h : (a == a0 && r == r0) <;>
    simp [h, filter_isNode_instRows, pairNodeRows_ec2Fault]

theorem pairRows_instExcept_ec2 (env : Env) (a0 r0 a r : String) :
    (pairRows (withEc2Fault env a0 r0) a r).filter (instExceptPred a0 r0)
      = (pairRows env a r).filter (instExceptPred a0 r0) := by
  unfold pairRows pairInstanceRows
  rw [List.filter_append, List.filter_append, pairInstanceIds_withEc2Fault]
  cases h : (a == a0 && r == r0) <;>
    simp [h, instExcept_instRows, pairNodeRows_ec2Fault]

theorem pairRows_inst_eks (env : Env) (a0 r0 a r : String) :
    (pairRows (withEksFault env a0 r0) a r).filter isInstanceRow
      = (pairRows env a r).filter isInstanceRow := by
  unfold pairRows pairNodeRows
  rw [List.filter_append, List.filter_append, pairNodeNames_withEksFault]
  cases h : (a == a0 && r == r0) <;>
    simp [h, filter_isInstance_nodeRows, pairInstanceRows_eksFault]

theorem pairRows_nodeExcept_eks (env : Env) (a0 r0 a r : String) :
    (pairRows (withEksFault env a0 r0) a r).filter (nodeExceptPred a0 r0)
      = (pairRows env a r).filter (nodeExceptPred a0 r0) := by
  unfold pairRows pairNodeRows
  rw [List.filter_append, List.filter_append, pairNodeNames_withEksFault]
  cases h : (a == a0 && r == r0) <;>
    simp [h, nodeExcept_nodeRows, pairInstanceRows_eksFault]

theorem awsRows_filter_congr (env envB : Env)
    (hcred : envB.credentials = env.credentials)
    (hreg : envB.availableRegions = env.availableRegions)
    (p : Row → Bool)
    (hpair : ∀ a r, (pairRows envB a r).filter p
      = (pairRows env a r).filter p) :
    (awsRows envB).filter p = (awsRows env).filter p := by
  unfold awsRows awsRowsOf accountRows
  rw [hcred, hreg]
  exact filter_flatten_congr p _ _
    (fun a => filter_flatten_congr p _ _ (fun r => hpair a r) _) _

theorem isNode_false_of_pod (row : Row) (h : isPodRow row = true) :
    isNodeRow row = false := by
  have hp : rowType row = "pod" := by simpa [isPodRow] using h
  simp [isNodeRow, hp]

theorem isInstance_false_of_pod (row : Row) (h : isPodRow row = true) :
    isInstanceRow row = false := by
  have hp : rowType row = "pod" := by simpa [isPodRow] using h
  simp [isInstanceRow, hp]

theorem filter_nil_of_all_pod (q : Row → Bool)
    (hq : ∀ row, isPodRow row = true → q row = false)
    (d : List Row) (h : d.all isPodRow = true) : d.filter q = [] := by
  rw [List.filter_eq_nil_iff]
  intro row hrow
  simp [hq row (List.all_eq_true.mp h row hrow)]

theorem runRows_filter (env : Env) (q : Row → Bool)
    (hq_header : q headerRow = false)
    (hq_pod : ∀ row, isPodRow row = true → q row = false) :
    (runInventory env).rows.filter q = (awsRows env).filter q := by
  obtain ⟨d, evd, h1, h2, _⟩ := runInventory_spec env
  rw [h1, List.filter_cons, List.filter_append, hq_header,
    filter_nil_of_all_pod q hq_pod d h2]
  simp

theorem runEvents_pairsEntered (env : Env) :
    pairsEnteredEv (runInventory env).events = pairsList env := by
  obtain ⟨d, evd, h1, h2, h3, h4, h5, h6, h7⟩ := runInventory_spec env
  rw [h6]
  unfold pairsEnteredEv
  rw [List.filterMap_append,
    filterMap_nil_podlike regionEvFn regFn_podlike evd h7, List.append_nil]
  exact pairsEnteredEv_awsEvs env

/-- C6: for every pair (a, r), making `describe_instances` fault there
changes no node row and no instance row of any other pair and still
enters every (account, region) pair; symmetrically, making every EKS
call fault there changes no instance row and no node row of any other
pair and still enters every pair.  The two per-pair try-blocks are
independent and non-fatal to the traversal. -/
theorem C6_pair_fault_isolation (env : Env) (a r : String) :
    nodeRowsOf (runInventory (withEc2Fault env a r))
        = nodeRowsOf (runInventory env) ∧
      instRowsExcept a r (runInventory (withEc2Fault env a r))
        = instRowsExcept a r (runInventory env) ∧
      pairsEnteredEv (runInventory (withEc2Fault env a r)).events
        = pairsEnteredEv (runInventory env).events ∧
      instRowsOf (runInventory (withEksFault env a r))
        = instRowsOf (runInventory env) ∧
      nodeRowsExcept a r (runInventory (withEksFault env a r))
        = nodeRowsExcept a r (runInventory env) ∧
      pairsEnteredEv (runInventory (withEksFault env a r)).events
        = pairsEnteredEv (runInventory env).events := by
  refine ⟨?_, ?_, ?_, ?_, ?_, ?_⟩
  · unfold nodeRowsOf
    rw [runRows_filter _ _ rfl isNode_false_of_pod,
      runRows_filter _ _ rfl isNode_false_of_pod]
    exact awsRows_filter_congr env (withEc2Fault env a r) rfl rfl isNodeRow
      (pairRows_node_ec2 env a r)
  · unfold instRowsExcept
    rw [runRows_filter _ _ rfl
        (fun row h => by simp [instExceptPred, isInstance_false_of_pod row h]),
      runRows_filter _ _ rfl
        (fun row h => by simp [instExceptPred, isInstance_false_of_pod row h])]
    exact awsRows_filter_congr env (withEc2Fault env a r) rfl rfl
      (instExceptPred a r) (pairRows_instExcept_ec2 env a r)
  · rw [runEvents_pairsEntered, runEvents_pairsEntered]
    rfl
  · unfold instRowsOf
    rw [runRows_filter _ _ rfl isInstance_false_of_pod,
      runRows_filter _ _ rfl isInstance_false_of_pod]
    exact awsRows_filter_congr env (withEksFault env a r) rfl rfl isInstanceRow
      (pairRows_inst_eks env a r)
  · unfold nodeRowsExcept
    rw [runRows_filter _ _ rfl
        (fun row h => by simp [nodeExceptPred, isNode_false_of_pod row h]),
      runRows_filter _ _ rfl
        (fun row h => by simp [nodeExceptPred, isNode_false_of_pod row h])]
    exact awsRows_filter_congr env (withEksFault env a r) rfl rfl
      (nodeExceptPred a r) (pairRows_nodeExcept_eks env a r)
  · rw [runEvents_pairsEntered, runEvents_pairsEntered]
    rfl

/-! ### The AWS section emits only AWS-side events -/

theorem isAws_pairInstanceEvs (env : Env) (a r : String) :
    (pairInstanceEvs env a r).all isAwsEv = true := by
  unfold pairInstanceEvs
  cases env.ec2Pages a r <;> simp [isAwsEv]

theorem isAws_clusterEvs (a r : String) (e : EksEnv) (c : String) :
    (clusterEvs a r e c).all isAwsEv = true := by
  unfold clusterEvs
  cases e.listNodegroups c with
  | clientError => simp [isAwsEv]
  | ok ngs => split <;> simp [isAwsEv]

theorem isAws_eksEvs (a r : String) (e : EksEnv) :
    (eksEvs a r e).all isAwsEv = true := by
  unfold eksEvs
  cases e.listClusters with
  | clientError => simp [isAwsEv]
  | ok cs =>
      induction cs with
      | nil => simp
      | cons c rest ih =>
          simp [List.all_append, isAws_clusterEvs, ih]

theorem isAws_pairEvs (env : Env) (a r : String) :
    (pairEvs env a r).all isAwsEv = true := by
  unfold pairEvs pairSummaryEvs
  simp [List.all_append, isAwsEv, isAws_pairInstanceEvs, isAws_eksEvs,
    apply_ite (List.all · isAwsEv)]

theorem isAws_flatPairEvs (env : Env) (a : String) (rs : List String) :
    ((rs.map (pairEvs env a)).flatten).all isAwsEv = true := by
  induction rs with
  | nil => rfl
  | cons r rest ih =>
      rw [List.map_cons, List.flatten_cons, List.all_append,
        isAws_pairEvs, ih]
      rfl

theorem isAws_accountEvs (env : Env) (a : String) :
    (accountEvs env a).all isAwsEv = true := by
  unfold accountEvs
  rw [List.all_cons, isAws_flatPairEvs]
  rfl

theorem isAws_awsEvs (env : Env) :
    (awsEvs env).all isAwsEv = true := by
  unfold awsEvs awsEvsOf
  induction env.credentials.filter keepAccount with
  | nil => rfl
  | cons a rest ih =>
      rw [List.map_cons, List.flatten_cons, List.all_append,
        isAws_accountEvs, ih]
      rfl

theorem ctxFn_aws (e : Ev) (h : isAwsEv e = true) : ctxEnteredFn e = none := by
  cases e <;> simp_all [isAwsEv, ctxEnteredFn]

theorem podFn_aws (e : Ev) (h : isAwsEv e = true) : podFaultFn e = none := by
  cases e <;> simp_all [isAwsEv, podFaultFn]

theorem ctxFn_awsEvs (env : Env) :
    (awsEvs env).filterMap ctxEnteredFn = [] :=
  List.filterMap_eq_nil_iff.mpr
    (fun e he => ctxFn_aws e (List.all_eq_true.mp (isAws_awsEvs env) e he))

theorem podFn_awsEvs (env : Env) :
    (awsEvs env).filterMap podFaultFn = [] :=
  List.filterMap_eq_nil_iff.mpr
    (fun e he => podFn_aws e (List.all_eq_true.mp (isAws_awsEvs env) e he))

/-! ### What the pod section emits per context -/

theorem ctxFn_ctxEvsOk (c : KubeContext) :
    (ctxEvsOk c).filterMap ctxEnteredFn = [c.name] := by
  unfold ctxEvsOk
  cases c.query <;> simp [ctxEnteredFn]

theorem ctxFn_ctxsEvs (l : List KubeContext) :
    (ctxsEvs l).filterMap ctxEnteredFn = l.map KubeContext.name := by
  induction l with
  | nil => simp [ctxsEvs]
  | cons c rest ih =>
      unfold ctxsEvs at ih ⊢
      rw [List.map_cons, List.flatten_cons, List.filterMap_append,
        ctxFn_ctxEvsOk, ih, List.map_cons]
      rfl

theorem podFn_ctxEvsOk (c : KubeContext) :
    (ctxEvsOk c).filterMap podFaultFn
      = if c.query == PodQuery.apiFault then [c.name] else [] := by
  unfold ctxEvsOk
  cases h : c.query <;> simp [podFaultFn, h]

theorem podFn_ctxsEvs (l : List KubeContext) :
    (ctxsEvs l).filterMap podFaultFn
      = (l.filter (fun c => c.query == PodQuery.apiFault)).map
          KubeContext.name := by
  induction l with
  | nil => simp [ctxsEvs]
  | cons c rest ih =>
      unfold ctxsEvs at ih ⊢
      rw [List.map_cons, List.flatten_cons, List.filterMap_append,
        podFn_ctxEvsOk, ih, List.filter_cons]
      cases h : (c.query == PodQuery.apiFault) <;> simp [h]

theorem ctxsRows_all_pod (l : List KubeContext) :
    (ctxsRows l).all isPodRow = true := by
  induction l with
  | nil => simp [ctxsRows]
  | cons c rest ih =>
      unfold ctxsRows at ih ⊢
      have h1 : (ctxRowsOk c).all isPodRow = true := by
        unfold ctxRowsOk
        cases c.query with
        | ok pods =>
            rw [List.all_eq_true]
            intro row hrow
            obtain ⟨p, _, rfl⟩ := List.mem_map.mp hrow
            rfl
        | apiFault => rfl
        | otherFault => rfl
      rw [List.map_cons, List.flatten_cons, List.all_append, h1, ih]
      rfl

theorem filter_isPod_awsRows (env : Env) :
    (awsRows env).filter isPodRow = [] := by
  rw [List.filter_eq_nil_iff]
  intro row hrow
  have hcl : isInstanceRow row = true ∨ isNodeRow row = true := by
    simpa using (mem_awsRows env row hrow).1
  rcases hcl with hi | hn
  · have : rowType row = "instance" := by simpa [isInstanceRow] using hi
    simp [isPodRow, this]
  · have : rowType row = "node" := by simpa [isNodeRow] using hn
    simp [isPodRow, this]

theorem awsAcctPod_some (env : Env)
    (hacc : env.credentials.any keepAccount = true)
    (hreg : (regionsOf env.availableRegions).isEmpty = false)
    (prev : Option Nat) :
    awsAcctPodOf env env.credentials prev = some 0 := by
  unfold awsAcctPodOf
  simp [hacc, hreg]

theorem runInventory_allOk (env : Env) (ctxs : List KubeContext)
    (hctx : env.listContexts = CtxList.ok ctxs)
    (hopen : ∀ c ∈ ctxs, c.openRes = KubeOpen.ok)
    (hq : ∀ c ∈ ctxs, c.query ≠ PodQuery.otherFault)
    (hacc : env.credentials.any keepAccount = true)
    (hreg : (regionsOf env.availableRegions).isEmpty = false) :
    runInventory env
      = { rows := headerRow :: (awsRows env ++ ctxsRows ctxs),
          instance_count := awsInstanceLen env,
          node_count := awsNodeLen env,
          pod_count := (ctxsRows ctxs).length,
          events := awsEvs env ++
            (ctxsEvs ctxs ++
              [.summary (awsInstanceLen env) (awsNodeLen env)
                ((ctxsRows ctxs).length)]),
          status := .completed } := by
  unfold runInventory
  rw [awsSection_eq]
  unfold podSection
  rw [hctx, awsAcctPod_some env hacc hreg]
  dsimp only
  rw [ctxLoop_ok ctxs _ 0 rfl (fun c hc => ⟨hopen c hc, hq c hc⟩)]
  dsimp only
  simp [initSt]

/-- C2 (amended): provided every context opens successfully, no fault is
of an uncatchable kind, and the account/region loop ran at least one
iteration (otherwise emitting a pod would crash on the undefined
per-region pod counter), a context whose pod query raises `ApiException`
is logged and skipped, every context is still entered, one pod record is
emitted per pod of each successfully queried context, and the program
completes normally.  (A fault while OPENING a context is not isolated:
it aborts all remaining contexts — see the counterexample.) -/
theorem C2_query_fault_isolated (env : Env) (ctxs : List KubeContext)
    (hctx : env.listContexts = CtxList.ok ctxs)
    (hopen : ∀ c ∈ ctxs, c.openRes = KubeOpen.ok)
    (hq : ∀ c ∈ ctxs, c.query ≠ PodQuery.otherFault)
    (hacc : env.credentials.any keepAccount = true)
    (hreg : (regionsOf env.availableRegions).isEmpty = false) :
    (runInventory env).status = RunStatus.completed ∧
      podRowsOf (runInventory env) = ctxsRows ctxs ∧
      (runInventory env).events.filterMap ctxEnteredFn
        = ctxs.map KubeContext.name ∧
      (runInventory env).events.filterMap podFaultFn
        = (ctxs.filter (fun c => c.query == PodQuery.apiFault)).map
            KubeContext.name := by
  rw [runInventory_allOk env ctxs hctx hopen hq hacc hreg]
  refine ⟨rfl, ?_, ?_, ?_⟩
  · unfold podRowsOf
    dsimp only
    rw [List.filter_cons, List.filter_append, filter_isPod_awsRows,
      List.filter_eq_self.mpr (List.all_eq_true.mp (ctxsRows_all_pod ctxs))]
    simp [isPodRow, headerRow, rowType]
  · dsimp only
    rw [List.filterMap_append, List.filterMap_append, ctxFn_awsEvs,
      ctxFn_ctxsEvs]
    simp [ctxEnteredFn]
  · dsimp only
    rw [List.filterMap_append, List.filterMap_append, podFn_awsEvs,
      podFn_ctxsEvs]
    simp [podFaultFn]

/-- Witness for the amended C2: one context whose pod query faults, then
one reachable context with two pods — both contexts are entered, exactly
the two pod rows of the reachable context are written, the fault is
logged, and the run completes. -/
theorem C2_query_fault_isolated_witness :
    (runInventory c2wenv).status = RunStatus.completed ∧
      podRowsOf (runInventory c2wenv) = ctxsRows [c2qbad, c2good] ∧
      (runInventory c2wenv).events.filterMap ctxEnteredFn
        = [c2qbad, c2good].map KubeContext.name ∧
      (runInventory c2wenv).events.filterMap podFaultFn
        = ([c2qbad, c2good].filter
            (fun c => c.query == PodQuery.apiFault)).map
              KubeContext.name :=
  C2_query_fault_isolated c2wenv [c2qbad, c2good] rfl (by decide) (by decide)
    (by decide) (by decide)

/-- C2, as stated, is false on the code: in `c2env` the first context is
unreachable at opening time ("bad" raises `ApiException` from
`load_kube_config`), which is caught only by the OUTER handler of the
pod section, so the reachable context "good" with its two pods is never
attempted: zero pod rows are written instead of two, with one logged
pod-section fault, though the program completes normally. -/
theorem C2_open_fault_aborts_rest :
    (runInventory c2env).status = RunStatus.completed ∧
      podRowsOf (runInventory c2env) = [] ∧
      Ev.contextEntered "good" ∉ (runInventory c2env).events ∧
      (runInventory c2env).events.countP
        (fun e => e == Ev.podSectionFault) = 1 ∧
      c2good.query = PodQuery.ok [("p1", "ns1"), ("p2", "ns2")] := by
  decide

/-! ### C1: pagination -/

/-- C1: the code calls `describe_instances` once and never follows the
pagination token, so with a two-page collection (i-1 on page one, i-2 on
page two) the run writes only the instance row of i-1, while the full
paginated listing holds both instances.  The emitted rows are NOT the
full list of instances. -/
theorem C1_first_page_only :
    instRowsOf (runInventory c1env)
        = [["instance", "i-1", "prod", "us-east-1"]] ∧
      allPageIds c1pages = ["i-1", "i-2"] ∧
      c1env.ec2Pages "prod" "us-east-1" = BotoResult.ok c1pages := by
  decide

/-! ### C7: nodegroup fault isolation -/

theorem ngNodeNames_break (e : EksEnv) (cluster : String)
    (ngs1 : List String) (ng : String) (ngs2 : List String)
    (hok : ∀ g ∈ ngs1, e.describeNodegroup cluster g ≠ .clientError)
    (hbad : e.describeNodegroup cluster ng = .clientError) :
    ngNodeNames e cluster (ngs1 ++ ng :: ngs2)
      = ((ngNodeNames e cluster ngs1).1, true) := by
  induction ngs1 with
  | nil => simp [ngNodeNames, hbad]
  | cons g rest ih =>
      have hg := hok g (by simp)
      cases hd : e.describeNodegroup cluster g with
      | clientError => exact absurd hd hg
      | ok d =>
          have ih' := ih (fun g' hg' => hok g' (by simp [hg']))
          rcases hr : ngNodeNames e cluster rest with ⟨ns, f⟩
          simp [ngNodeNames, hd, ih', hr]

/-- C7 (amended): a `ClientError` while fetching a nodegroup description
is caught by the per-CLUSTER handler, not per nodegroup: the nodes of
the nodegroups processed before the fault are kept, every remaining
nodegroup of that cluster is skipped, one eks-nodes fault is logged for
the cluster, and the cluster body returns normally so the loop proceeds
to the next cluster. -/
theorem C7_nodegroup_fault_cluster_level (a r cluster : String)
    (e : EksEnv) (s : St) (anc : Nat)
    (ngs1 : List String) (ng : String) (ngs2 : List String)
    (hlist : e.listNodegroups cluster = .ok (ngs1 ++ ng :: ngs2))
    (hok : ∀ g ∈ ngs1, e.describeNodegroup cluster g ≠ .clientError)
    (hbad : e.describeNodegroup cluster ng = .clientError) :
    clusterBody a r e (s, anc) cluster
      = ({ s with
            rows := s.rows ++
              ((ngNodeNames e cluster ngs1).1).map (nodeRow a r),
            node_count := s.node_count +
              (ngNodeNames e cluster ngs1).1.length,
            events := s.events ++
              [.clusterVisited a r cluster, .eksNodesFault a r cluster] },
         anc + (ngNodeNames e cluster ngs1).1.length) := by
  rw [clusterBody_eq]
  unfold clusterNodeNames clusterEvs
  rw [hlist]
  dsimp only
  rw [ngNodeNames_break e cluster ngs1 ng ngs2 hok hbad]
  simp

/-- Witness for the amended C7: nodegroup ng0 is processed (one node
kept), the faulting ng1 aborts ng2, one cluster-level fault is logged,
and the cluster body returns normally. -/
theorem C7_nodegroup_fault_witness :
    clusterBody "prod" "us-east-1" c7weks (initSt, 0) "c1"
      = ({ initSt with
            rows := initSt.rows ++
              ((ngNodeNames c7weks "c1" ["ng0"]).1).map
                (nodeRow "prod" "us-east-1"),
            node_count := initSt.node_count +
              (ngNodeNames c7weks "c1" ["ng0"]).1.length,
            events := initSt.events ++
              [.clusterVisited "prod" "us-east-1" "c1",
               .eksNodesFault "prod" "us-east-1" "c1"] },
         0 + (ngNodeNames c7weks "c1" ["ng0"]).1.length) :=
  C7_nodegroup_fault_cluster_level "prod" "us-east-1" "c1" c7weks initSt 0
    ["ng0"] "ng1" ["ng2"] rfl (by decide) (by decide)

/-- C7, as stated, is false on the code: in `c7env` the cluster c1 has
nodegroups ng1 and ng2; describing ng1 raises `ClientError`, and because
the try/except wraps the WHOLE nodegroup loop, ng2 — whose description
succeeds and holds node n2 — is never processed: the run writes zero
node rows, not one per surviving nodegroup. -/
theorem C7_fault_skips_sibling_nodegroups :
    nodeRowsOf (runInventory c7env) = [] ∧
      c7eks.describeNodegroup "c1" "ng2" = BotoResult.ok ⟨["n2"]⟩ ∧
      (runInventory c7env).events.countP
        (fun e => e == Ev.eksNodesFault "prod" "us-east-1" "c1") = 1 := by
  decide

end AwsInventory
